import Mathlib

/-!
# Verification of the population/weather simulation engine (Weather_Sim.js)

This file gives a shallow embedding of the simulation engine found in
`src/Weather/Weather_Sim.js`: season resolution (`getSeasonForDay`), the
temperature synthesizer (`seasonalBaseline`, `extremeEvent` and the layered
sum in the driver), crop growth (`calculateGrowthFactor`, `calculateGrowth`,
`calculateBasicGrowth`), population dynamics (`calculatePopulationChange`)
and the day-by-day simulation driver (the `useEffect` generation pass),
followed by theorems settling the specification claims.

JavaScript numbers are modelled by `JSNum`: real numbers extended with
`nan`, `posInf` and `negInf`, with IEEE-754 special-value propagation for
the arithmetic the engine performs (notably division by zero producing
infinities or NaN).  Rounding of finite doubles is idealised to exact real
arithmetic; the negative zero of IEEE-754 is identified with zero.  A JS
product can be `-0` (and a subsequent division by it `-Infinity`) only
when one factor is negative, so every driver-level theorem below carries
both `foodPerPerson ≥ 0` and a nonnegative-integer `startingPopulation`
hypothesis: together they keep the running population a natural number
and every `population * foodPerPerson` requirement a nonnegative
(positive-zero) product, so no `-0` divisor is reachable and the model
agrees with the program on every path the theorems quantify over.
-/

namespace WeatherSim

open Classical

/-- A JavaScript number: a finite real, an infinity, or NaN. -/
inductive JSNum where
  | nan : JSNum
  | posInf : JSNum
  | negInf : JSNum
  | fin : ℝ → JSNum

namespace JSNum

/-- JS `+` on numbers. -/
def add : JSNum → JSNum → JSNum
  | nan, _ => nan
  | _, nan => nan
  | posInf, negInf => nan
  | negInf, posInf => nan
  | posInf, _ => posInf
  | _, posInf => posInf
  | negInf, _ => negInf
  | _, negInf => negInf
  | fin a, fin b => fin (a + b)

/-- JS unary minus. -/
def neg : JSNum → JSNum
  | nan => nan
  | posInf => negInf
  | negInf => posInf
  | fin a => fin (-a)

/-- JS `-` (IEEE subtraction is addition of the negation). -/
def sub (a b : JSNum) : JSNum := add a (neg b)

/-- JS `*` on numbers.  The IEEE negative zero is identified with zero:
`fin a * fin 0 = fin 0` even for `a < 0`, where JS yields `-0`.  The
driver-level theorems restrict themselves to nonnegative factors
(natural-number population, `foodPerPerson ≥ 0`), where the two agree. -/
noncomputable def mul : JSNum → JSNum → JSNum
  | nan, _ => nan
  | _, nan => nan
  | posInf, posInf => posInf
  | posInf, negInf => negInf
  | negInf, posInf => negInf
  | negInf, negInf => posInf
  | posInf, fin b => if 0 < b then posInf else if b < 0 then negInf else nan
  | fin a, posInf => if 0 < a then posInf else if a < 0 then negInf else nan
  | negInf, fin b => if 0 < b then negInf else if b < 0 then posInf else nan
  | fin a, negInf => if 0 < a then negInf else if a < 0 then posInf else nan
  | fin a, fin b => fin (a * b)

/-- JS `/` on numbers (division by zero produces an infinity or NaN;
the IEEE negative zero is identified with zero, so a finite value divided
by zero takes the sign of the numerator — the JS `a / -0 = -Infinity`
case for `a > 0` is not representable, and the driver-level theorems
carry hypotheses keeping every divisor a nonnegative product so that a
`-0` divisor is unreachable in the program as well). -/
noncomputable def div : JSNum → JSNum → JSNum
  | nan, _ => nan
  | _, nan => nan
  | posInf, posInf => nan
  | posInf, negInf => nan
  | negInf, posInf => nan
  | negInf, negInf => nan
  | posInf, fin b => if 0 ≤ b then posInf else negInf
  | negInf, fin b => if 0 ≤ b then negInf else posInf
  | fin _, posInf => fin 0
  | fin _, negInf => fin 0
  | fin a, fin b =>
      if b = 0 then (if a = 0 then nan else if 0 < a then posInf else negInf)
      else fin (a / b)

/-- JS `Math.min` (NaN-propagating). -/
noncomputable def min : JSNum → JSNum → JSNum
  | nan, _ => nan
  | _, nan => nan
  | negInf, _ => negInf
  | _, negInf => negInf
  | posInf, b => b
  | a, posInf => a
  | fin a, fin b => fin (Min.min a b)

/-- JS `Math.max` (NaN-propagating). -/
noncomputable def max : JSNum → JSNum → JSNum
  | nan, _ => nan
  | _, nan => nan
  | posInf, _ => posInf
  | _, posInf => posInf
  | negInf, b => b
  | a, negInf => a
  | fin a, fin b => fin (Max.max a b)

/-- JS `Math.floor`. -/
noncomputable def floor : JSNum → JSNum
  | nan => nan
  | posInf => posInf
  | negInf => negInf
  | fin a => fin (⌊a⌋ : ℤ)

/-- JS `Math.round` (round half up; on finite arguments
`Math.round x = ⌊x + 1/2⌋`). -/
noncomputable def round : JSNum → JSNum
  | nan => nan
  | posInf => posInf
  | negInf => negInf
  | fin a => fin (⌊a + 1/2⌋ : ℤ)

/-- JS `Math.exp`. -/
noncomputable def exp : JSNum → JSNum
  | nan => nan
  | posInf => posInf
  | negInf => fin 0
  | fin a => fin (Real.exp a)

/-- JS `Math.sin` (NaN on non-finite input). -/
noncomputable def sin : JSNum → JSNum
  | fin a => fin (Real.sin a)
  | _ => nan

/-- JS `Math.cos` (NaN on non-finite input). -/
noncomputable def cos : JSNum → JSNum
  | fin a => fin (Real.cos a)
  | _ => nan

/-- JS `<` as a boolean (false whenever NaN is involved). -/
noncomputable def ltb : JSNum → JSNum → Bool
  | nan, _ => false
  | _, nan => false
  | _, negInf => false
  | negInf, _ => true
  | posInf, _ => false
  | fin _, posInf => true
  | fin a, fin b => decide (a < b)

/-- JS `<=` as a boolean (false whenever NaN is involved). -/
noncomputable def leb : JSNum → JSNum → Bool
  | nan, _ => false
  | _, nan => false
  | negInf, _ => true
  | _, negInf => false
  | posInf, posInf => true
  | posInf, fin _ => false
  | fin _, posInf => true
  | fin a, fin b => decide (a ≤ b)

/-- JS `Number.isFinite`. -/
def isFinite : JSNum → Bool
  | fin _ => true
  | _ => false

end JSNum

/-! ## Season resolution (`getSeasonForDay`, Weather_Sim.js lines 314-336) -/

/-- A season definition `{name, length}`. -/
structure Season where
  name : String
  length : ℝ

/-- The return value of `getSeasonForDay`: `{name, progress}`.  The progress
is a JS number: the source divides by `season.length`, which yields a
non-finite value for a zero-length season. -/
structure SeasonResult where
  name : String
  progress : JSNum

/-- The `for (const season of seasons)` loop of `getSeasonForDay`, carrying
the `accumulated` running total. -/
noncomputable def seasonLoop (dayOfYear : ℝ) : List Season → ℝ → SeasonResult
  | [], _ => ⟨"Winter", JSNum.fin 0⟩
  | season :: rest, accumulated =>
    if dayOfYear < accumulated + season.length then
      ⟨season.name, JSNum.div (JSNum.fin (dayOfYear - accumulated)) (JSNum.fin season.length)⟩
    else
      seasonLoop dayOfYear rest (accumulated + season.length)

/-- `getSeasonForDay(dayOfYear, seasons)`: walk the seasons in order
accumulating lengths; return the season whose range contains the day with
`progress = (dayOfYear - accumulated) / season.length`; if no season
contains the day, fall back to `{name: "Winter", progress: 0}`. -/
noncomputable def getSeasonForDay (dayOfYear : ℝ) (seasons : List Season) : SeasonResult :=
  seasonLoop dayOfYear seasons 0

/-! ## Temperature baseline (`seasonalBaseline`, lines 364-468) -/

/-- A season temperature profile `{mean, amp}`. -/
structure Profile where
  mean : ℝ
  amp : ℝ

/-- Entry of the `seasonMidpoints` array built in `seasonalBaseline`. -/
structure Midpoint where
  name : String
  midpointDay : ℝ
  mean : ℝ
  amp : ℝ
  length : ℝ

/-- STEP 1 of `seasonalBaseline`: reorder the seasons to start from the
user's chosen season (`[...seasons.slice(startIndex), ...seasons.slice(0, startIndex)]`).
When `indexOf` misses (returns `-1`), the JS slices produce the last season
followed by all but the last. -/
def orderedSeasons (seasons : List Season) (startingSeason : String) : List Season :=
  match seasons.findIdx? (fun s => s.name = startingSeason) with
  | some i => seasons.drop i ++ seasons.take i
  | none => seasons.drop (seasons.length - 1) ++ seasons.take (seasons.length - 1)

/-- STEP 2 of `seasonalBaseline`: the midpoint day of each (reordered)
season, with the profile's mean (default 50) and amp (default 0). -/
noncomputable def seasonMidpoints (profiles : String → Option Profile) : List Season → ℝ → List Midpoint
  | [], _ => []
  | season :: rest, cumulativeDays =>
    { name := season.name
      midpointDay := cumulativeDays + season.length / 2
      mean := ((profiles season.name).map Profile.mean).getD 50
      amp := ((profiles season.name).map Profile.amp).getD 0
      length := season.length } :: seasonMidpoints profiles rest (cumulativeDays + season.length)

/-- STEP 4 of `seasonalBaseline`: scan consecutive midpoint pairs for the
pair bracketing the current day; the final wrap-around iteration and the
no-break exit both yield the loop's defaults `(last, first)`. -/
noncomputable def scanPairs (currentDayInYear : ℝ) :
    List (Midpoint × Midpoint) → Midpoint × Midpoint → Midpoint × Midpoint
  | [], dflt => dflt
  | (curr, next) :: rest, dflt =>
    if curr.midpointDay ≤ currentDayInYear ∧ currentDayInYear < next.midpointDay then (curr, next)
    else scanPairs currentDayInYear rest dflt

/-- `seasonalBaseline(seasonName, progress, dayOfYear, seasonProfiles, seasons, startingSeason)`
(lines 364-468): cosine interpolation between the two bracketing season
midpoints plus an intra-season wiggle.  `seasonName` is unused in the
source ("not used, kept for future"). -/
noncomputable def seasonalBaseline (_seasonName : String) (progress : JSNum) (dayOfYear : ℝ)
    (seasonProfiles : String → Option Profile) (seasons : List Season)
    (startingSeason : String) : JSNum :=
  let ordered := orderedSeasons seasons startingSeason
  let mids := seasonMidpoints seasonProfiles ordered 0
  let currentDayInYear : ℝ := dayOfYear - 365 * (⌊dayOfYear / 365⌋ : ℤ)
  let dflt : Midpoint := ⟨"", 0, 50, 0, 0⟩
  let pn := scanPairs currentDayInYear (mids.zip mids.tail) (mids.getLastD dflt, mids.headD dflt)
  let prevMidpoint := pn.1
  let nextMidpoint := pn.2
  let distanceFromPrev : ℝ :=
    if prevMidpoint.midpointDay > nextMidpoint.midpointDay then
      (if currentDayInYear ≥ prevMidpoint.midpointDay then
        currentDayInYear - prevMidpoint.midpointDay
      else (365 - prevMidpoint.midpointDay) + currentDayInYear)
    else currentDayInYear - prevMidpoint.midpointDay
  let totalDistance : ℝ :=
    if prevMidpoint.midpointDay > nextMidpoint.midpointDay then
      (365 - prevMidpoint.midpointDay) + nextMidpoint.midpointDay
    else nextMidpoint.midpointDay - prevMidpoint.midpointDay
  let progressBetweenMidpoints := JSNum.div (JSNum.fin distanceFromPrev) (JSNum.fin totalDistance)
  let smoothProgress := JSNum.div
    (JSNum.sub (JSNum.fin 1) (JSNum.cos (JSNum.mul progressBetweenMidpoints (JSNum.fin Real.pi))))
    (JSNum.fin 2)
  let baseTemp := JSNum.add (JSNum.fin prevMidpoint.mean)
    (JSNum.mul (JSNum.fin (nextMidpoint.mean - prevMidpoint.mean)) smoothProgress)
  let currentSeasonMidpoint :=
    if JSNum.ltb progressBetweenMidpoints (JSNum.fin 0.5) then prevMidpoint else nextMidpoint
  let intraSeason := JSNum.mul
    (JSNum.mul (JSNum.fin currentSeasonMidpoint.amp)
      (JSNum.sin (JSNum.mul progress (JSNum.fin Real.pi))))
    (JSNum.fin 0.3)
  JSNum.add baseTemp intraSeason

/-! ## Extreme events (`extremeEvent`, lines 487-505) -/

/-- `extremeEvent(dayIndex, seasonName, seed)`: a deterministic rare event
delta, season-biased in direction. -/
noncomputable def extremeEvent (dayIndex : ℕ) (seasonName : String) (seed : ℝ) : ℝ :=
  let signal := Real.sin (dayIndex * 0.173 + seed * 100) * 0.5 + 0.5
  if signal < 0.97 then 0
  else
    let magnitude := 8 + 6 * |Real.sin (dayIndex * 0.91)|
    if seasonName = "Summer" then magnitude
    else if seasonName = "Winter" then -magnitude
    else if Real.sin (dayIndex * 0.37) > 0 then magnitude else -magnitude

/-! ## Crop growth (`calculateGrowthFactor`, `calculateGrowth`,
`calculateBasicGrowth`, lines 511-586) -/

/-- Crop parameters `{optimalTemp, tolerance, maxGrowth, minGrowth}`. -/
structure CropConfig where
  optimalTemp : ℝ
  tolerance : ℝ
  maxGrowth : ℝ
  minGrowth : ℝ

/-- `calculateGrowthFactor(population)` (lines 511-524).  The population is
a JS number (the running population state). -/
noncomputable def calculateGrowthFactor (population : JSNum) : JSNum :=
  if JSNum.leb population (JSNum.fin 10000) then
    (if JSNum.ltb population (JSNum.fin 1000) then JSNum.fin 1
     else JSNum.mul (JSNum.floor (JSNum.div population (JSNum.fin 50))) (JSNum.fin 0.1))
  else JSNum.fin 20

/-- `calculateGrowth(temperature, cropConfig, population)` (lines 543-564):
Gaussian bell curve around the optimal temperature, scaled by the
population factor, floored at `minGrowth`.  The temperature argument is the
driver's already-sanitised finite temperature. -/
noncomputable def calculateGrowth (temperature : ℝ) (cropConfig : CropConfig)
    (population : JSNum) : JSNum :=
  let populationFactor := calculateGrowthFactor population
  let scaledMaxGrowth := JSNum.mul (JSNum.fin cropConfig.maxGrowth) populationFactor
  let deviation := temperature - cropConfig.optimalTemp
  let bellCurve := JSNum.exp (JSNum.div (JSNum.fin (-(deviation ^ 2)))
    (JSNum.fin (2 * cropConfig.tolerance ^ 2)))
  JSNum.add (JSNum.fin cropConfig.minGrowth) (JSNum.mul scaledMaxGrowth bellCurve)

/-- `calculateBasicGrowth(temperature, cropConfig)` (lines 576-586): the
unscaled visualization curve. -/
noncomputable def calculateBasicGrowth (temperature : ℝ) (cropConfig : CropConfig) : JSNum :=
  let deviation := temperature - cropConfig.optimalTemp
  let bellCurve := JSNum.exp (JSNum.div (JSNum.fin (-(deviation ^ 2)))
    (JSNum.fin (2 * cropConfig.tolerance ^ 2)))
  JSNum.add (JSNum.fin cropConfig.minGrowth) (JSNum.mul (JSNum.fin cropConfig.maxGrowth) bellCurve)

/-! ## Population dynamics (`calculatePopulationChange`, lines 606-643) -/

/-- Population rate parameters `{baseBirthRate, baseDeathRate}`. -/
structure PopRates where
  baseBirthRate : ℝ
  baseDeathRate : ℝ

/-- `Math.min(1, foodStock / totalFoodNeeded)` — the food-availability
factor of `calculatePopulationChange` (line 613). -/
noncomputable def foodRatio (foodStock totalFoodNeeded : JSNum) : JSNum :=
  JSNum.min (JSNum.fin 1) (JSNum.div foodStock totalFoodNeeded)

/-- The birth-rate adjustment of `calculatePopulationChange` (lines 617-621):
`baseBirthRate * 0.1` when `foodRatio === 0`, otherwise proportional. -/
noncomputable def birthRate (baseBirthRate : ℝ) (r : JSNum) : JSNum :=
  if r = JSNum.fin 0 then JSNum.mul (JSNum.fin baseBirthRate) (JSNum.fin 0.1)
  else JSNum.mul (JSNum.fin baseBirthRate) r

/-- The result record of `calculatePopulationChange`. -/
structure PopChange where
  births : JSNum
  deaths : JSNum
  newPopulation : JSNum

/-- `calculatePopulationChange(population, foodStock, totalFoodNeeded, config)`
(lines 606-643). -/
noncomputable def calculatePopulationChange (population foodStock totalFoodNeeded : JSNum)
    (config : PopRates) : PopChange :=
  let r := foodRatio foodStock totalFoodNeeded
  let br := birthRate config.baseBirthRate r
  let deathRate := JSNum.mul (JSNum.fin config.baseDeathRate) (JSNum.sub (JSNum.fin 2) r)
  let births := JSNum.floor (JSNum.mul population br)
  let deaths := JSNum.floor (JSNum.mul population deathRate)
  let newPopulation := JSNum.max (JSNum.fin 0) (JSNum.sub (JSNum.add population births) deaths)
  ⟨births, deaths, newPopulation⟩

/-! ## The simulation driver (the generation `useEffect`, lines 788-1022) -/

/-- The `activeConfig` record (lines 690-725) together with the seed: the
full `(SimulationConfig, seed)` input of a generation pass. -/
structure SimulationConfig where
  yearCount : ℕ
  startingSeason : String
  winterLength : ℝ
  springLength : ℝ
  summerLength : ℝ
  fallLength : ℝ
  winterMean : ℝ
  winterAmp : ℝ
  springMean : ℝ
  springAmp : ℝ
  summerMean : ℝ
  summerAmp : ℝ
  fallMean : ℝ
  fallAmp : ℝ
  optimalTemp : ℝ
  tolerance : ℝ
  maxGrowth : ℝ
  minGrowth : ℝ
  startingFood : ℝ
  foodPerPerson : ℝ
  startingPopulation : ℝ
  baseBirthRate : ℝ
  baseDeathRate : ℝ

/-- `totalDays = 365 * activeConfig.yearCount` (line 790). -/
def totalDays (cfg : SimulationConfig) : ℕ := 365 * cfg.yearCount

/-- The `cropConfig` object built by the driver (lines 793-798). -/
def cropConfigOf (cfg : SimulationConfig) : CropConfig :=
  ⟨cfg.optimalTemp, cfg.tolerance, cfg.maxGrowth, cfg.minGrowth⟩

/-- The `seasons` array built by the driver (lines 801-806) — NOTE: in
calendar order starting at Winter, regardless of `startingSeason`. -/
def seasonsOf (cfg : SimulationConfig) : List Season :=
  [⟨"Winter", cfg.winterLength⟩, ⟨"Spring", cfg.springLength⟩,
   ⟨"Summer", cfg.summerLength⟩, ⟨"Fall", cfg.fallLength⟩]

/-- The `seasonProfiles` object built by the driver (lines 809-814). -/
def seasonProfilesOf (cfg : SimulationConfig) : String → Option Profile := fun n =>
  if n = "Winter" then some ⟨cfg.winterMean, cfg.winterAmp⟩
  else if n = "Spring" then some ⟨cfg.springMean, cfg.springAmp⟩
  else if n = "Summer" then some ⟨cfg.summerMean, cfg.summerAmp⟩
  else if n = "Fall" then some ⟨cfg.fallMean, cfg.fallAmp⟩
  else none

/-- A `DailyClimateRecord` pushed into `generated` (lines 905-911). -/
structure ClimateRec where
  dayIndex : ℕ
  year : ℕ
  dayOfYear : ℕ
  season : String
  temperature : ℝ

/-- `Math.round(x * 10) / 10` on a finite value. -/
noncomputable def round10 (x : ℝ) : ℝ := (⌊x * 10 + 1/2⌋ : ℤ) / 10

/-- `Math.round(n * 10) / 10` on a JS number. -/
noncomputable def jsRound10 (n : JSNum) : JSNum :=
  JSNum.div (JSNum.round (JSNum.mul n (JSNum.fin 10))) (JSNum.fin 10)

/-- One iteration of the temperature loop (lines 827-912): the four layers
summed, the `Number.isFinite` guard substituting 0, and the one-decimal
rounding. -/
noncomputable def climateDay (cfg : SimulationConfig) (seed : ℝ) (dayIndex : ℕ) : ClimateRec :=
  let year := dayIndex / 365
  let dayOfYear := dayIndex % 365
  let season := getSeasonForDay (dayOfYear : ℝ) (seasonsOf cfg)
  let base := seasonalBaseline season.name season.progress (dayOfYear : ℝ)
    (seasonProfilesOf cfg) (seasonsOf cfg) cfg.startingSeason
  let daily : ℝ := 2 * Real.sin ((2 * Real.pi * dayIndex) / 7)
  let noise : ℝ := 3 * Real.sin ((dayIndex : ℝ) / 20 + seed * 10)
    + 2 * Real.sin ((dayIndex : ℝ) / 10 + seed * 20)
  let extreme := extremeEvent dayIndex season.name seed
  let temp := JSNum.add (JSNum.add (JSNum.add base (JSNum.fin daily)) (JSNum.fin noise))
    (JSNum.fin extreme)
  let safeTemp : ℝ := match temp with
    | JSNum.fin x => x
    | _ => 0
  ⟨dayIndex, year, dayOfYear, season.name, round10 safeTemp⟩

/-- The full `generated` array (temperature loop over all days). -/
noncomputable def generateClimate (cfg : SimulationConfig) (seed : ℝ) : List ClimateRec :=
  (List.range (totalDays cfg)).map (climateDay cfg seed)

/-- A `FoodLedgerEntry` pushed into `foodSimulation` (lines 985-990 and
1008-1013); `amount` is the `growth` field of a growth-phase entry and the
`consumed` field of a consumption-phase entry. -/
structure FoodRec where
  x : ℝ
  food : JSNum
  phase : String
  amount : JSNum

/-- A `PopulationLedgerEntry` pushed into `populationSimulation`
(lines 974-980). -/
structure PopRec where
  x : ℕ
  population : JSNum
  births : JSNum
  deaths : JSNum
  foodRatio : JSNum

/-- The running state of the food/population loop. -/
structure EconState where
  food : JSNum
  population : JSNum

/-- The records produced by one day of the food/population loop. -/
structure DayResult where
  popRec : PopRec
  growthRec : FoodRec
  consumptionRec : FoodRec
  state : EconState

/-- One iteration of the food & population loop (lines 933-1014), in source
order: harvest, food need, population step, population record, growth-phase
food record, consumption, clamp at 0, consumption-phase food record. -/
noncomputable def econStep (cfg : SimulationConfig) (seed : ℝ) (dayIndex : ℕ)
    (s : EconState) : DayResult :=
  let temp := (climateDay cfg seed dayIndex).temperature
  let growth := calculateGrowth temp (cropConfigOf cfg) s.population
  let food1 := JSNum.add s.food growth
  let totalFoodNeeded := JSNum.mul s.population (JSNum.fin cfg.foodPerPerson)
  let popChange := calculatePopulationChange s.population food1 totalFoodNeeded
    ⟨cfg.baseBirthRate, cfg.baseDeathRate⟩
  let newPop := popChange.newPopulation
  let popRec : PopRec := ⟨dayIndex, JSNum.round newPop, popChange.births, popChange.deaths,
    foodRatio food1 totalFoodNeeded⟩
  let growthRec : FoodRec := ⟨(dayIndex : ℝ), jsRound10 food1, "growth", jsRound10 growth⟩
  let food2 := JSNum.sub food1 totalFoodNeeded
  let food3 := if JSNum.ltb food2 (JSNum.fin 0) then JSNum.fin 0 else food2
  let consumptionRec : FoodRec := ⟨(dayIndex : ℝ) + 0.5, jsRound10 food3, "consumption",
    totalFoodNeeded⟩
  ⟨popRec, growthRec, consumptionRec, ⟨food3, newPop⟩⟩

/-- The food & population loop: `n` remaining days starting at `dayIndex`,
producing the population ledger and the food ledger (two entries/day). -/
noncomputable def econLoop (cfg : SimulationConfig) (seed : ℝ) :
    ℕ → ℕ → EconState → List PopRec × List FoodRec
  | _, 0, _ => ([], [])
  | dayIndex, n + 1, s =>
    let r := econStep cfg seed dayIndex s
    let rest := econLoop cfg seed (dayIndex + 1) n r.state
    (r.popRec :: rest.1, r.growthRec :: r.consumptionRec :: rest.2)

/-- The full generation pass of the driver: the temperature loop followed by
the food & population loop from `(startingFood, startingPopulation)`. -/
noncomputable def simulate (cfg : SimulationConfig) (seed : ℝ) :
    List ClimateRec × List PopRec × List FoodRec :=
  let climate := generateClimate cfg seed
  let econ := econLoop cfg seed 0 (totalDays cfg)
    ⟨JSNum.fin cfg.startingFood, JSNum.fin cfg.startingPopulation⟩
  (climate, econ.1, econ.2)

/-- The initial `activeConfig` of the source (lines 690-725). -/
noncomputable def defaultConfig : SimulationConfig where
  yearCount := 1
  startingSeason := "Spring"
  winterLength := 90
  springLength := 92
  summerLength := 92
  fallLength := 91
  winterMean := 15
  winterAmp := 10
  springMean := 65
  springAmp := 12
  summerMean := 90
  summerAmp := 10
  fallMean := 55
  fallAmp := 12
  optimalTemp := 65
  tolerance := 18
  maxGrowth := 1000
  minGrowth := 100
  startingFood := 10000
  foodPerPerson := 1
  startingPopulation := 1000
  baseBirthRate := 0.01
  baseDeathRate := 0.008

/-- `accumulatedStart` of season `i`: the sum of the lengths of the
seasons preceding it. -/
def cumLen : List Season → ℕ → ℝ
  | _, 0 => 0
  | [], _ + 1 => 0
  | s :: rest, i + 1 => s.length + cumLen rest i

/-- The degenerate configuration exercising the division-by-zero corner of
the population step: zero starting population and food, and a crop that
produces nothing (`minGrowth = maxGrowth = 0`), everything else as in the
default config. -/
noncomputable def cfgDeg : SimulationConfig :=
  { defaultConfig with
    maxGrowth := 0
    minGrowth := 0
    startingFood := 0
    startingPopulation := 0 }

namespace JSNum

@[simp] theorem add_fin (a b : ℝ) : add (fin a) (fin b) = fin (a + b) := rfl
@[simp] theorem add_nan_left (a : JSNum) : add nan a = nan := by cases a <;> rfl
@[simp] theorem add_nan_right (a : JSNum) : add a nan = nan := by cases a <;> rfl
@[simp] theorem add_fin_nan (a : ℝ) : add (fin a) nan = nan := rfl
@[simp] theorem neg_fin (a : ℝ) : neg (fin a) = fin (-a) := rfl
@[simp] theorem sub_fin (a b : ℝ) : sub (fin a) (fin b) = fin (a - b) := by
  simp [sub, sub_eq_add_neg]
@[simp] theorem sub_nan_left (a : JSNum) : sub nan a = nan := by cases a <;> rfl
@[simp] theorem sub_nan_right (a : JSNum) : sub a nan = nan := by cases a <;> rfl
@[simp] theorem mul_fin (a b : ℝ) : mul (fin a) (fin b) = fin (a * b) := rfl
@[simp] theorem mul_nan_left (a : JSNum) : mul nan a = nan := by cases a <;> rfl
@[simp] theorem mul_nan_right (a : JSNum) : mul a nan = nan := by cases a <;> rfl
@[simp] theorem min_fin (a b : ℝ) : min (fin a) (fin b) = fin (Min.min a b) := rfl
@[simp] theorem min_nan_right (a : JSNum) : min a nan = nan := by cases a <;> rfl
@[simp] theorem min_fin_posInf (a : ℝ) : min (fin a) posInf = fin a := rfl
@[simp] theorem max_fin (a b : ℝ) : max (fin a) (fin b) = fin (Max.max a b) := rfl
@[simp] theorem max_nan_right (a : JSNum) : max a nan = nan := by cases a <;> rfl
@[simp] theorem floor_fin (a : ℝ) : floor (fin a) = fin (⌊a⌋ : ℤ) := rfl
@[simp] theorem floor_nan : floor nan = nan := rfl
@[simp] theorem round_fin (a : ℝ) : round (fin a) = fin (⌊a + 1/2⌋ : ℤ) := rfl
@[simp] theorem round_nan : round nan = nan := rfl
@[simp] theorem exp_fin (a : ℝ) : exp (fin a) = fin (Real.exp a) := rfl
@[simp] theorem exp_nan : exp nan = nan := rfl
@[simp] theorem ltb_fin (a b : ℝ) : ltb (fin a) (fin b) = decide (a < b) := rfl
@[simp] theorem ltb_nan_left (a : JSNum) : ltb nan a = false := by cases a <;> rfl
@[simp] theorem ltb_nan_right (a : JSNum) : ltb a nan = false := by cases a <;> rfl
@[simp] theorem leb_fin (a b : ℝ) : leb (fin a) (fin b) = decide (a ≤ b) := rfl
@[simp] theorem leb_nan_left (a : JSNum) : leb nan a = false := by cases a <;> rfl
@[simp] theorem leb_nan_right (a : JSNum) : leb a nan = false := by cases a <;> rfl
@[simp] theorem leb_posInf_fin (b : ℝ) : leb posInf (fin b) = false := rfl
@[simp] theorem leb_negInf_fin (b : ℝ) : leb negInf (fin b) = true := rfl
@[simp] theorem ltb_negInf_fin (b : ℝ) : ltb negInf (fin b) = true := rfl

theorem div_fin_of_ne (a b : ℝ) (h : b ≠ 0) : div (fin a) (fin b) = fin (a / b) := by
  simp [div, h]

theorem div_fin_zero_of_pos (a : ℝ) (h : 0 < a) : div (fin a) (fin 0) = posInf := by
  simp [div, h.ne', h]

@[simp] theorem div_zero_zero : div (fin 0) (fin 0) = nan := by simp [div]

@[simp] theorem min_one_posInf : min (fin 1) posInf = fin 1 := rfl

@[simp] theorem div_nan_left (a : JSNum) : div nan a = nan := by cases a <;> rfl
@[simp] theorem div_nan_right (a : JSNum) : div a nan = nan := by cases a <;> rfl

@[simp] theorem mul_fin_posInf (a : ℝ) :
    mul (fin a) posInf = if 0 < a then posInf else if a < 0 then negInf else nan := rfl

@[simp] theorem max_fin_nan (a : ℝ) : max (fin a) nan = nan := rfl

end JSNum

/-! ## Helper lemmas: crop growth -/

/-- The population factor is always a nonnegative finite number, whatever
JS number the population is (a NaN population falls into the `else 20`
branch because `NaN <= 10000` is false). -/
theorem growthFactor_spec (p : JSNum) :
    ∃ φ : ℝ, calculateGrowthFactor p = JSNum.fin φ ∧ 0 ≤ φ := by
  cases p with
  | nan => exact ⟨20, by simp [calculateGrowthFactor], by norm_num⟩
  | posInf => exact ⟨20, by simp [calculateGrowthFactor], by norm_num⟩
  | negInf => exact ⟨1, by simp [calculateGrowthFactor], by norm_num⟩
  | fin x =>
    by_cases hx : x ≤ 10000
    · by_cases hx2 : x < 1000
      · exact ⟨1, by simp [calculateGrowthFactor, hx, hx2], by norm_num⟩
      · refine ⟨(⌊x / 50⌋ : ℤ) * 0.1, ?_, ?_⟩
        · simp [calculateGrowthFactor, hx, hx2, JSNum.div_fin_of_ne _ _ (by norm_num : (50:ℝ) ≠ 0)]
        · have hx' : (0:ℝ) ≤ x / 50 := by
            push_neg at hx2
            positivity
          have : (0:ℤ) ≤ ⌊x / 50⌋ := Int.floor_nonneg.mpr hx'
          have : (0:ℝ) ≤ (⌊x / 50⌋ : ℤ) := by exact_mod_cast this
          nlinarith
    · exact ⟨20, by simp [calculateGrowthFactor, hx], by norm_num⟩

/-- With a nonzero tolerance the bell curve is a finite value in `(0, 1]`. -/
theorem bellCurve_spec (deviation tolerance : ℝ) (ht : tolerance ≠ 0) :
    ∃ e : ℝ, JSNum.exp (JSNum.div (JSNum.fin (-(deviation ^ 2)))
      (JSNum.fin (2 * tolerance ^ 2))) = JSNum.fin e ∧ 0 < e ∧ e ≤ 1 := by
  have hden : (2 * tolerance ^ 2) ≠ 0 := by positivity
  refine ⟨Real.exp (-(deviation ^ 2) / (2 * tolerance ^ 2)), ?_, Real.exp_pos _, ?_⟩
  · rw [JSNum.div_fin_of_ne _ _ hden, JSNum.exp_fin]
  · have hle : -(deviation ^ 2) / (2 * tolerance ^ 2) ≤ 0 := by
      apply div_nonpos_of_nonpos_of_nonneg
      · nlinarith [sq_nonneg deviation]
      · positivity
    calc Real.exp (-(deviation ^ 2) / (2 * tolerance ^ 2)) ≤ Real.exp 0 :=
          Real.exp_le_exp.mpr hle
      _ = 1 := Real.exp_zero

/-- With `maxGrowth ≥ 0` and a nonzero tolerance, `calculateGrowth` returns
a finite value at least `minGrowth`, for every temperature and every JS
population value. -/
theorem calculateGrowth_spec (T : ℝ) (crop : CropConfig) (p : JSNum)
    (hM : 0 ≤ crop.maxGrowth) (ht : crop.tolerance ≠ 0) :
    ∃ g : ℝ, calculateGrowth T crop p = JSNum.fin g ∧ crop.minGrowth ≤ g := by
  obtain ⟨φ, hφ, hφ0⟩ := growthFactor_spec p
  obtain ⟨e, he, he0, he1⟩ := bellCurve_spec (T - crop.optimalTemp) crop.tolerance ht
  refine ⟨crop.minGrowth + crop.maxGrowth * φ * e, ?_, ?_⟩
  · simp only [calculateGrowth, hφ, he, JSNum.mul_fin, JSNum.add_fin]
  · nlinarith [mul_nonneg (mul_nonneg hM hφ0) he0.le]

/-! ## Helper lemmas: the birth-rate adjustment -/

/-- With a positive base rate, nonnegative food stock and positive food
requirement, the effective birth rate is a strictly positive finite value;
it equals exactly `baseBirthRate * 0.1` when the stock is zero, and is at
least `baseBirthRate * 0.1` whenever `foodStock / foodNeeded ≥ 0.1`. -/
theorem birthRate_spec (b F N : ℝ) (hb : 0 < b) (hF : 0 ≤ F) (hN : 0 < N) :
    ∃ r : ℝ, birthRate b (foodRatio (JSNum.fin F) (JSNum.fin N)) = JSNum.fin r ∧ 0 < r ∧
      (F = 0 → r = b * 0.1) ∧ (0.1 ≤ F / N → b * 0.1 ≤ r) := by
  have hdiv := JSNum.div_fin_of_ne F N hN.ne'
  by_cases hF0 : F = 0
  · refine ⟨b * 0.1, ?_, by positivity, fun _ => rfl, fun _ => le_refl _⟩
    subst hF0
    have hcond : JSNum.fin (Min.min (1:ℝ) (0 / N)) = JSNum.fin 0 := by
      rw [zero_div]
      exact congrArg JSNum.fin (min_eq_right zero_le_one)
    rw [foodRatio, hdiv, JSNum.min_fin, birthRate, if_pos hcond, JSNum.mul_fin]
  · have hFpos : 0 < F := lt_of_le_of_ne hF (Ne.symm hF0)
    have hq : 0 < F / N := div_pos hFpos hN
    have hmin : Min.min (1:ℝ) (F / N) ≠ 0 := by positivity
    refine ⟨b * Min.min 1 (F / N), ?_, by positivity, fun h => absurd h hF0, fun hr => ?_⟩
    · rw [foodRatio, hdiv, JSNum.min_fin, birthRate, if_neg, JSNum.mul_fin]
      simp only [JSNum.fin.injEq]
      exact hmin
    · have h1 : (0.1:ℝ) ≤ Min.min 1 (F / N) := le_min (by norm_num) hr
      nlinarith

/-! ## Claim C7: growth floor -/

/-- C7 (amended: requires a nonzero `tolerance`; with `tolerance = 0` and
the temperature exactly at `optimalTemp` the bell-curve exponent is
`-0 / 0 = NaN` and the result is NaN): for all temperatures and all JS
population values, and crop parameters with `maxGrowth ≥ 0` and
`tolerance ≠ 0`, `calculateGrowth` returns a finite value `≥ minGrowth`. -/
theorem growth_floor (T : ℝ) (crop : CropConfig) (p : JSNum)
    (hM : 0 ≤ crop.maxGrowth) (ht : crop.tolerance ≠ 0) :
    ∃ g : ℝ, calculateGrowth T crop p = JSNum.fin g ∧ crop.minGrowth ≤ g :=
  calculateGrowth_spec T crop p hM ht

/-- Witness for `growth_floor` at a concrete input. -/
theorem growth_floor_witness :
    (0:ℝ) ≤ 1000 ∧ (18:ℝ) ≠ 0 ∧
    ∃ g : ℝ, calculateGrowth 70 ⟨65, 18, 1000, 100⟩ (JSNum.fin 500) = JSNum.fin g ∧
      (100:ℝ) ≤ g :=
  ⟨by norm_num, by norm_num,
    growth_floor 70 ⟨65, 18, 1000, 100⟩ (JSNum.fin 500) (by norm_num) (by norm_num)⟩

/-- Counterexample to C7 as stated: with crop parameters
`{optimalTemp := 65, tolerance := 0, maxGrowth := 5, minGrowth := 3}`
(`maxGrowth ≥ 0` as the claim demands) and temperature 65, the source
computes `Math.exp(-0 / 0) = NaN`, so the growth is NaN, not a value
`≥ minGrowth = 3`. -/
theorem growth_floor_counterexample :
    calculateGrowth 65 ⟨65, 0, 5, 3⟩ (JSNum.fin 100) = JSNum.nan ∧
    ¬ ∃ g : ℝ, calculateGrowth 65 ⟨65, 0, 5, 3⟩ (JSNum.fin 100) = JSNum.fin g ∧ (3:ℝ) ≤ g := by
  have h : calculateGrowth 65 ⟨65, 0, 5, 3⟩ (JSNum.fin 100) = JSNum.nan := by
    norm_num [calculateGrowth, calculateGrowthFactor]
  refine ⟨h, ?_⟩
  rintro ⟨g, hg, -⟩
  rw [h] at hg
  exact JSNum.noConfusion hg

/-! ## Claim C8: bell-curve symmetry and peak -/

/-- C8 (amended: requires a nonzero `tolerance` for the peak value; with
`tolerance = 0` the peak evaluates to NaN): for any crop parameters with
`tolerance ≠ 0`, any JS population value and any deviation `d`, growth at
`optimalTemp + d` equals growth at `optimalTemp - d`; growth at
`optimalTemp` equals `minGrowth + maxGrowth * populationFactor`; and the
unscaled `calculateBasicGrowth` is likewise symmetric with peak
`minGrowth + maxGrowth`. -/
theorem bell_symmetry_peak (crop : CropConfig) (p : JSNum) (d : ℝ)
    (ht : crop.tolerance ≠ 0) :
    calculateGrowth (crop.optimalTemp + d) crop p
      = calculateGrowth (crop.optimalTemp - d) crop p ∧
    (∀ φ : ℝ, calculateGrowthFactor p = JSNum.fin φ →
      calculateGrowth crop.optimalTemp crop p
        = JSNum.fin (crop.minGrowth + crop.maxGrowth * φ)) ∧
    calculateBasicGrowth (crop.optimalTemp + d) crop
      = calculateBasicGrowth (crop.optimalTemp - d) crop ∧
    calculateBasicGrowth crop.optimalTemp crop
      = JSNum.fin (crop.minGrowth + crop.maxGrowth) := by
  have hden : 2 * crop.tolerance ^ 2 ≠ 0 := by positivity
  have h1 : crop.optimalTemp + d - crop.optimalTemp = d := by ring
  have h2 : crop.optimalTemp - d - crop.optimalTemp = -d := by ring
  have h0 : crop.optimalTemp - crop.optimalTemp = (0:ℝ) := sub_self _
  have hbell : JSNum.exp (JSNum.div (JSNum.fin (-((0:ℝ) ^ 2)))
      (JSNum.fin (2 * crop.tolerance ^ 2))) = JSNum.fin 1 := by
    rw [show -((0:ℝ) ^ 2) = 0 by norm_num, JSNum.div_fin_of_ne _ _ hden, zero_div,
      JSNum.exp_fin, Real.exp_zero]
  refine ⟨?_, ?_, ?_, ?_⟩
  · simp only [calculateGrowth, h1, h2, neg_sq]
  · intro φ hφ
    simp only [calculateGrowth, hφ, h0, hbell, JSNum.mul_fin, JSNum.add_fin, mul_one]
  · simp only [calculateBasicGrowth, h1, h2, neg_sq]
  · simp only [calculateBasicGrowth, h0, hbell, JSNum.mul_fin, JSNum.add_fin, mul_one]

/-- Witness for `bell_symmetry_peak` at a concrete input. -/
theorem bell_symmetry_peak_witness :
    (18:ℝ) ≠ 0 ∧
    (calculateGrowth (65 + 7) ⟨65, 18, 1000, 100⟩ (JSNum.fin 500)
      = calculateGrowth (65 - 7) ⟨65, 18, 1000, 100⟩ (JSNum.fin 500) ∧
    (∀ φ : ℝ, calculateGrowthFactor (JSNum.fin 500) = JSNum.fin φ →
      calculateGrowth 65 ⟨65, 18, 1000, 100⟩ (JSNum.fin 500)
        = JSNum.fin (100 + 1000 * φ)) ∧
    calculateBasicGrowth (65 + 7) ⟨65, 18, 1000, 100⟩
      = calculateBasicGrowth (65 - 7) ⟨65, 18, 1000, 100⟩ ∧
    calculateBasicGrowth 65 ⟨65, 18, 1000, 100⟩ = JSNum.fin (100 + 1000)) :=
  ⟨by norm_num, bell_symmetry_peak ⟨65, 18, 1000, 100⟩ (JSNum.fin 500) 7 (by norm_num)⟩

/-- Counterexample to C8 as stated ("for any crop parameters"): with
`tolerance = 0` the peak value is NaN rather than
`minGrowth + maxGrowth * populationFactor = 2 + 7 * 1`. -/
theorem bell_peak_counterexample :
    calculateGrowthFactor (JSNum.fin 500) = JSNum.fin 1 ∧
    calculateGrowth 70 ⟨70, 0, 7, 2⟩ (JSNum.fin 500) = JSNum.nan ∧
    JSNum.nan ≠ JSNum.fin (2 + 7 * 1) := by
  refine ⟨?_, ?_, fun h => JSNum.noConfusion h⟩
  · norm_num [calculateGrowthFactor]
  · norm_num [calculateGrowth, calculateGrowthFactor]

/-! ## Claim C5: birth-rate scaling and its floor -/

/-- C5 (amended: the global bound `birthRate ≥ baseBirthRate * 0.1` only
holds when the food ratio is at least `0.1` or exactly `0`; for
`0 < foodRatio < 0.1` the proportional rate lies strictly below the
claimed floor): with `baseBirthRate > 0`, `foodStock ≥ 0` and
`foodNeeded > 0`, the effective birth rate is a strictly positive finite
value, equals exactly `baseBirthRate * 0.1` at total food exhaustion
(`foodStock = 0`), and is at least `baseBirthRate * 0.1` whenever
`foodStock / foodNeeded ≥ 0.1`. -/
theorem birth_rate_scaling (b F N : ℝ) (hb : 0 < b) (hF : 0 ≤ F) (hN : 0 < N) :
    ∃ r : ℝ, birthRate b (foodRatio (JSNum.fin F) (JSNum.fin N)) = JSNum.fin r ∧ 0 < r ∧
      (F = 0 → r = b * 0.1) ∧ (0.1 ≤ F / N → b * 0.1 ≤ r) :=
  birthRate_spec b F N hb hF hN

/-- Witness for `birth_rate_scaling` at a concrete input. -/
theorem birth_rate_scaling_witness :
    (0:ℝ) < 0.01 ∧ (0:ℝ) ≤ 500 ∧ (0:ℝ) < 1000 ∧
    ∃ r : ℝ, birthRate 0.01 (foodRatio (JSNum.fin 500) (JSNum.fin 1000)) = JSNum.fin r ∧
      0 < r ∧ ((500:ℝ) = 0 → r = 0.01 * 0.1) ∧ ((0.1:ℝ) ≤ 500 / 1000 → 0.01 * 0.1 ≤ r) :=
  ⟨by norm_num, by norm_num, by norm_num,
    birth_rate_scaling 0.01 500 1000 (by norm_num) (by norm_num) (by norm_num)⟩

/-- Counterexample to C5 as stated: with `foodStock = 50`,
`foodNeeded = 1000` and `baseBirthRate = 0.01`, the food ratio is `0.05`
(nonzero, so the crisis floor branch is not taken) and the effective birth
rate is `0.01 * 0.05 = 0.0005`, strictly below the claimed universal floor
`baseBirthRate * 0.1 = 0.001`. -/
theorem birth_rate_floor_counterexample :
    birthRate 0.01 (foodRatio (JSNum.fin 50) (JSNum.fin 1000)) = JSNum.fin 0.0005 ∧
    (0.0005 : ℝ) < 0.01 * 0.1 := by
  constructor
  · rw [foodRatio, JSNum.div_fin_of_ne _ _ (by norm_num : (1000:ℝ) ≠ 0), JSNum.min_fin,
      show Min.min (1:ℝ) (50 / 1000) = 0.05 by norm_num,
      birthRate, if_neg (by simp only [JSNum.fin.injEq]; norm_num), JSNum.mul_fin]
    norm_num
  · norm_num

/-! ## Claim C10: the zero-population step is harmless -/

/-- C10: invoked with `population = 0`, `totalFoodNeeded = 0` and a
positive `foodStock`, the population step's division by zero produces
`Infinity`, `Math.min(1, Infinity) = 1`, and the result is
`births = 0`, `deaths = 0`, `newPopulation = 0` — no error, for every pair
of base rates. -/
theorem zero_population_step (F b d : ℝ) (hF : 0 < F) :
    foodRatio (JSNum.fin F) (JSNum.fin 0) = JSNum.fin 1 ∧
    calculatePopulationChange (JSNum.fin 0) (JSNum.fin F) (JSNum.fin 0) ⟨b, d⟩ =
      ⟨JSNum.fin 0, JSNum.fin 0, JSNum.fin 0⟩ := by
  have hr : foodRatio (JSNum.fin F) (JSNum.fin 0) = JSNum.fin 1 := by
    rw [foodRatio, JSNum.div_fin_zero_of_pos F hF, JSNum.min_fin_posInf]
  refine ⟨hr, ?_⟩
  rw [calculatePopulationChange, hr, birthRate,
    if_neg (by simp only [JSNum.fin.injEq]; norm_num)]
  simp only [JSNum.mul_fin, JSNum.sub_fin, JSNum.add_fin, JSNum.floor_fin, JSNum.max_fin]
  norm_num

/-- Witness for `zero_population_step` at a concrete input. -/
theorem zero_population_step_witness :
    (0:ℝ) < 500 ∧
    (foodRatio (JSNum.fin 500) (JSNum.fin 0) = JSNum.fin 1 ∧
    calculatePopulationChange (JSNum.fin 0) (JSNum.fin 500) (JSNum.fin 0) ⟨0.01, 0.008⟩ =
      ⟨JSNum.fin 0, JSNum.fin 0, JSNum.fin 0⟩) :=
  ⟨by norm_num, zero_population_step 500 0.01 0.008 (by norm_num)⟩

/-! ## Helper lemmas: season resolution -/

@[simp] theorem cumLen_nil (i : ℕ) : cumLen [] i = 0 := by cases i <;> rfl

@[simp] theorem cumLen_zero (ss : List Season) : cumLen ss 0 = 0 := by cases ss <;> rfl

theorem cumLen_cons_succ (s : Season) (rest : List Season) (i : ℕ) :
    cumLen (s :: rest) (i + 1) = s.length + cumLen rest i := rfl

theorem cumLen_nonneg (ss : List Season) (hnn : ∀ s ∈ ss, 0 ≤ s.length) (i : ℕ) :
    0 ≤ cumLen ss i := by
  induction ss generalizing i with
  | nil => simp
  | cons s rest ih =>
    cases i with
    | zero => simp
    | succ j =>
      have h1 : 0 ≤ s.length := hnn s (List.mem_cons_self _ _)
      have h2 : 0 ≤ cumLen rest j := ih (fun t ht => hnn t (List.mem_cons_of_mem _ ht)) j
      rw [cumLen_cons_succ]
      linarith

theorem cumLen_succ_get (ss : List Season) (i : ℕ) (hi : i < ss.length) :
    cumLen ss (i + 1) = cumLen ss i + (ss.get ⟨i, hi⟩).length := by
  induction ss generalizing i with
  | nil => exact absurd hi (Nat.not_lt_zero _)
  | cons s rest ih =>
    cases i with
    | zero => simp [cumLen_cons_succ]
    | succ j =>
      have hj : j < rest.length := Nat.succ_lt_succ_iff.mp hi
      rw [cumLen_cons_succ, cumLen_cons_succ, ih j hj, List.get_cons_succ]
      ring

theorem cumLen_mono (ss : List Season) (hnn : ∀ s ∈ ss, 0 ≤ s.length)
    {i j : ℕ} (hij : i ≤ j) : cumLen ss i ≤ cumLen ss j := by
  induction ss generalizing i j with
  | nil => simp
  | cons s rest ih =>
    cases i with
    | zero =>
      simpa using cumLen_nonneg (s :: rest) hnn j
    | succ i' =>
      cases j with
      | zero => exact absurd hij (Nat.not_succ_le_zero _)
      | succ j' =>
        rw [cumLen_cons_succ, cumLen_cons_succ]
        have := ih (fun t ht => hnn t (List.mem_cons_of_mem _ ht))
          (Nat.succ_le_succ_iff.mp hij)
        linarith

/-- At most one season range contains a given day. -/
theorem season_range_unique (ss : List Season) (hpos : ∀ s ∈ ss, 0 < s.length) (d : ℝ)
    (i j : ℕ) (hi : i < ss.length) (hj : j < ss.length)
    (h1 : cumLen ss i ≤ d ∧ d < cumLen ss i + (ss.get ⟨i, hi⟩).length)
    (h2 : cumLen ss j ≤ d ∧ d < cumLen ss j + (ss.get ⟨j, hj⟩).length) : i = j := by
  have hnn : ∀ s ∈ ss, 0 ≤ s.length := fun s hs => (hpos s hs).le
  by_contra hne
  rcases Nat.lt_or_ge i j with hlt | hge
  · have : cumLen ss (i + 1) ≤ cumLen ss j := cumLen_mono ss hnn hlt
    rw [cumLen_succ_get ss i hi] at this
    linarith [h1.2, h2.1]
  · have hlt : j < i := lt_of_le_of_ne hge (fun h => hne h.symm)
    have : cumLen ss (j + 1) ≤ cumLen ss i := cumLen_mono ss hnn hlt
    rw [cumLen_succ_get ss j hj] at this
    linarith [h2.2, h1.1]

/-- Some season range contains any day within the total length. -/
theorem season_range_exists (ss : List Season) (acc d : ℝ)
    (hpos : ∀ s ∈ ss, 0 < s.length)
    (hlo : acc ≤ d) (hhi : d < acc + (ss.map Season.length).sum) :
    ∃ (i : ℕ) (hi : i < ss.length),
      acc + cumLen ss i ≤ d ∧ d < acc + cumLen ss i + (ss.get ⟨i, hi⟩).length := by
  induction ss generalizing acc with
  | nil =>
    simp only [List.map_nil, List.sum_nil, add_zero] at hhi
    exact absurd hlo (not_le.mpr hhi)
  | cons s rest ih =>
    by_cases h : d < acc + s.length
    · exact ⟨0, Nat.succ_pos _, by simpa using hlo, by simpa using h⟩
    · push_neg at h
      have hhi' : d < (acc + s.length) + (rest.map Season.length).sum := by
        simp only [List.map_cons, List.sum_cons] at hhi
        linarith
      obtain ⟨j, hj, hl, hh⟩ :=
        ih (acc + s.length) (fun t ht => hpos t (List.mem_cons_of_mem _ ht)) h hhi'
      refine ⟨j + 1, Nat.succ_lt_succ hj, ?_, ?_⟩
      · rw [cumLen_cons_succ]; linarith
      · rw [cumLen_cons_succ, List.get_cons_succ]; linarith

/-- The season loop returns exactly the season whose range contains the
day, with the source's progress value. -/
theorem seasonLoop_mem (ss : List Season) (acc d : ℝ)
    (hpos : ∀ s ∈ ss, 0 < s.length)
    (i : ℕ) (hi : i < ss.length)
    (hlo : acc + cumLen ss i ≤ d)
    (hhi : d < acc + cumLen ss i + (ss.get ⟨i, hi⟩).length) :
    seasonLoop d ss acc =
      ⟨(ss.get ⟨i, hi⟩).name,
        JSNum.fin ((d - (acc + cumLen ss i)) / (ss.get ⟨i, hi⟩).length)⟩ := by
  induction ss generalizing acc i with
  | nil => exact absurd hi (Nat.not_lt_zero _)
  | cons s rest ih =>
    cases i with
    | zero =>
      have hc : d < acc + s.length := by
        simpa using hhi
      rw [seasonLoop, if_pos hc,
        JSNum.div_fin_of_ne _ _ (hpos s (List.mem_cons_self _ _)).ne']
      simp
    | succ j =>
      have hj : j < rest.length := Nat.succ_lt_succ_iff.mp hi
      have h0 : 0 ≤ cumLen rest j :=
        cumLen_nonneg rest (fun t ht => (hpos t (List.mem_cons_of_mem _ ht)).le) j
      have hge : ¬ d < acc + s.length := by
        rw [cumLen_cons_succ] at hlo
        push_neg
        linarith
      rw [seasonLoop, if_neg hge]
      have hres := ih (acc + s.length) (fun t ht => hpos t (List.mem_cons_of_mem _ ht)) j hj
        (by rw [cumLen_cons_succ] at hlo; linarith)
        (by rw [cumLen_cons_succ] at hhi; rw [List.get_cons_succ] at hhi; linarith)
      rw [hres, List.get_cons_succ]
      have harg : d - (acc + s.length + cumLen rest j) = d - (acc + cumLen (s :: rest) (j + 1)) := by
        rw [cumLen_cons_succ]; ring_nf
      rw [harg]

/-! ## Claim C6: season partition -/

/-- C6: for every day `d ∈ [0, 365)` and every season list with positive
lengths summing to 365, exactly one season's cumulative range
`[accumulatedStart, accumulatedStart + length)` contains `d`, and
`getSeasonForDay` returns that season with
`progress = (d - accumulatedStart) / length ∈ [0, 1)`. -/
theorem season_partition (seasons : List Season) (d : ℝ)
    (hpos : ∀ s ∈ seasons, 0 < s.length)
    (hsum : (seasons.map Season.length).sum = 365)
    (hd0 : 0 ≤ d) (hd : d < 365) :
    (∃! i : Fin seasons.length,
      cumLen seasons i ≤ d ∧ d < cumLen seasons i + (seasons.get i).length) ∧
    ∀ i : Fin seasons.length,
      cumLen seasons i ≤ d → d < cumLen seasons i + (seasons.get i).length →
      getSeasonForDay d seasons =
        ⟨(seasons.get i).name, JSNum.fin ((d - cumLen seasons i) / (seasons.get i).length)⟩ ∧
      0 ≤ (d - cumLen seasons i) / (seasons.get i).length ∧
      (d - cumLen seasons i) / (seasons.get i).length < 1 := by
  constructor
  · obtain ⟨i, hi, hl, hh⟩ := season_range_exists seasons 0 d hpos hd0 (by rw [hsum]; linarith)
    rw [zero_add] at hl
    refine ⟨⟨i, hi⟩, ⟨hl, by simpa using hh⟩, ?_⟩
    rintro ⟨j, hj⟩ ⟨hl', hh'⟩
    have := season_range_unique seasons hpos d j i hj hi ⟨hl', hh'⟩ ⟨hl, by simpa using hh⟩
    exact Fin.ext this
  · rintro ⟨i, hi⟩ hl hh
    have hlen : 0 < (seasons.get ⟨i, hi⟩).length := hpos _ (seasons.get_mem _ _)
    have hres := seasonLoop_mem seasons 0 d hpos i hi (by rw [zero_add]; exact hl)
      (by rw [zero_add]; exact hh)
    refine ⟨?_, ?_, ?_⟩
    · rw [getSeasonForDay, hres, zero_add]
    · exact div_nonneg (by linarith) hlen.le
    · rw [div_lt_one hlen]; linarith

/-- Witness for `season_partition`: the driver's default season list at
day 45. -/
theorem season_partition_witness :
    (∀ s ∈ seasonsOf defaultConfig, 0 < s.length) ∧
    ((seasonsOf defaultConfig).map Season.length).sum = 365 ∧
    (0:ℝ) ≤ 45 ∧ (45:ℝ) < 365 ∧
    ((∃! i : Fin (seasonsOf defaultConfig).length,
      cumLen (seasonsOf defaultConfig) i ≤ 45 ∧
        (45:ℝ) < cumLen (seasonsOf defaultConfig) i + ((seasonsOf defaultConfig).get i).length) ∧
    ∀ i : Fin (seasonsOf defaultConfig).length,
      cumLen (seasonsOf defaultConfig) i ≤ 45 →
      (45:ℝ) < cumLen (seasonsOf defaultConfig) i + ((seasonsOf defaultConfig).get i).length →
      getSeasonForDay 45 (seasonsOf defaultConfig) =
        ⟨((seasonsOf defaultConfig).get i).name,
          JSNum.fin ((45 - cumLen (seasonsOf defaultConfig) i) /
            ((seasonsOf defaultConfig).get i).length)⟩ ∧
      0 ≤ (45 - cumLen (seasonsOf defaultConfig) i) / ((seasonsOf defaultConfig).get i).length ∧
      (45 - cumLen (seasonsOf defaultConfig) i) / ((seasonsOf defaultConfig).get i).length < 1) := by
  have hpos : ∀ s ∈ seasonsOf defaultConfig, 0 < s.length := by
    intro s hs
    simp only [seasonsOf, defaultConfig, List.mem_cons, List.not_mem_nil, or_false] at hs
    rcases hs with rfl | rfl | rfl | rfl <;> norm_num
  have hsum : ((seasonsOf defaultConfig).map Season.length).sum = 365 := by
    simp [seasonsOf, defaultConfig]
    norm_num
  exact ⟨hpos, hsum, by norm_num, by norm_num,
    season_partition (seasonsOf defaultConfig) 45 hpos hsum (by norm_num) (by norm_num)⟩

/-! ## Claim C9: fallback for malformed season lists -/

/-- The fallback of the season loop: when the day lies at or beyond the
total accumulated length, the hardcoded `{name: "Winter", progress: 0}` is
returned. -/
theorem seasonLoop_fallback (ss : List Season) (acc d : ℝ)
    (hnn : ∀ s ∈ ss, 0 ≤ s.length)
    (h : acc + (ss.map Season.length).sum ≤ d) :
    seasonLoop d ss acc = ⟨"Winter", JSNum.fin 0⟩ := by
  induction ss generalizing acc with
  | nil => rfl
  | cons s rest ih =>
    have hr : 0 ≤ (rest.map Season.length).sum := by
      apply List.sum_nonneg
      intro x hx
      obtain ⟨t, ht, rfl⟩ := List.mem_map.mp hx
      exact hnn t (List.mem_cons_of_mem _ ht)
    have hsum : acc + s.length + (rest.map Season.length).sum ≤ d := by
      simp only [List.map_cons, List.sum_cons] at h
      linarith
    have hcond : ¬ d < acc + s.length := by push_neg; linarith
    rw [seasonLoop, if_neg hcond]
    exact ih (acc + s.length) (fun t ht => hnn t (List.mem_cons_of_mem _ ht)) hsum

/-- C9 (amended: the fallback is the hardcoded `{name: "Winter",
progress: 0}`, not the first season of the given list — the two coincide
only when the list starts with Winter, as the driver's list does): for
every day at or beyond the sum of the (nonnegative) season lengths,
`getSeasonForDay` does not fail and returns `{name: "Winter", progress: 0}`. -/
theorem season_fallback (seasons : List Season) (d : ℝ)
    (hnn : ∀ s ∈ seasons, 0 ≤ s.length)
    (h : (seasons.map Season.length).sum ≤ d) :
    getSeasonForDay d seasons = ⟨"Winter", JSNum.fin 0⟩ := by
  rw [getSeasonForDay]
  exact seasonLoop_fallback seasons 0 d hnn (by rw [zero_add]; exact h)

/-- Witness for `season_fallback`: the driver's default list at day 400. -/
theorem season_fallback_witness :
    (∀ s ∈ seasonsOf defaultConfig, 0 ≤ s.length) ∧
    ((seasonsOf defaultConfig).map Season.length).sum ≤ 400 ∧
    getSeasonForDay 400 (seasonsOf defaultConfig) = ⟨"Winter", JSNum.fin 0⟩ := by
  have hnn : ∀ s ∈ seasonsOf defaultConfig, 0 ≤ s.length := by
    intro s hs
    simp only [seasonsOf, defaultConfig, List.mem_cons, List.not_mem_nil, or_false] at hs
    rcases hs with rfl | rfl | rfl | rfl <;> norm_num
  have hle : ((seasonsOf defaultConfig).map Season.length).sum ≤ 400 := by
    simp [seasonsOf, defaultConfig]
    norm_num
  exact ⟨hnn, hle, season_fallback (seasonsOf defaultConfig) 400 hnn hle⟩

/-- Counterexample to C9 as stated: for the single-season list
`[{name: "Spring", length: 10}]` and day 20 (lengths sum to `10 < 20 + 1`,
so no season contains the day), the source returns the hardcoded
`{name: "Winter", progress: 0}` — not the first season `Spring` of the
given list. -/
theorem season_fallback_counterexample :
    getSeasonForDay 20 [⟨"Spring", 10⟩] = ⟨"Winter", JSNum.fin 0⟩ ∧
    getSeasonForDay 20 [⟨"Spring", 10⟩] ≠ ⟨"Spring", JSNum.fin 0⟩ := by
  have h : getSeasonForDay 20 [⟨"Spring", 10⟩] = ⟨"Winter", JSNum.fin 0⟩ := by
    rw [getSeasonForDay, seasonLoop, if_neg (by norm_num : ¬ (20:ℝ) < 0 + 10)]
    rfl
  refine ⟨h, ?_⟩
  rw [h]
  intro hcontra
  have : ("Winter" : String) = "Spring" := congrArg SeasonResult.name hcontra
  exact absurd this (by decide)

/-! ## Claim C4: the engine's season resolution is not rotated -/

/-- How the driver's calendar-ordered default season list resolves days 0
and 91 (shared computation for the rotation claims). -/
theorem default_resolution_facts :
    getSeasonForDay 0 (seasonsOf defaultConfig) = ⟨"Winter", JSNum.fin 0⟩ ∧
    getSeasonForDay 91 (seasonsOf defaultConfig) = ⟨"Spring", JSNum.fin (1 / 92)⟩ ∧
    (climateDay defaultConfig 0 0).season = "Winter" ∧
    (climateDay defaultConfig 0 91).season = "Spring" := by
  have h0 : getSeasonForDay 0 (seasonsOf defaultConfig) = ⟨"Winter", JSNum.fin 0⟩ := by
    rw [show seasonsOf defaultConfig =
      [⟨"Winter", (90:ℝ)⟩, ⟨"Spring", 92⟩, ⟨"Summer", 92⟩, ⟨"Fall", 91⟩] by
        simp [seasonsOf, defaultConfig]]
    rw [getSeasonForDay, seasonLoop, if_pos (by norm_num : (0:ℝ) < 0 + 90),
      JSNum.div_fin_of_ne _ _ (by norm_num : (90:ℝ) ≠ 0)]
    norm_num
  have h91 : getSeasonForDay 91 (seasonsOf defaultConfig) = ⟨"Spring", JSNum.fin (1 / 92)⟩ := by
    rw [show seasonsOf defaultConfig =
      [⟨"Winter", (90:ℝ)⟩, ⟨"Spring", 92⟩, ⟨"Summer", 92⟩, ⟨"Fall", 91⟩] by
        simp [seasonsOf, defaultConfig]]
    rw [getSeasonForDay, seasonLoop, if_neg (by norm_num : ¬ (91:ℝ) < 0 + 90),
      seasonLoop, if_pos (by norm_num : (91:ℝ) < 0 + 90 + 92),
      JSNum.div_fin_of_ne _ _ (by norm_num : (92:ℝ) ≠ 0)]
    norm_num
  refine ⟨h0, h91, ?_, ?_⟩
  · show (getSeasonForDay ((0 % 365 : ℕ) : ℝ) (seasonsOf defaultConfig)).name = "Winter"
    norm_num [h0]
  · show (getSeasonForDay ((91 % 365 : ℕ) : ℝ) (seasonsOf defaultConfig)).name = "Spring"
    norm_num [h91]

/-- C4 (amended: the driver resolves seasons against the calendar-ordered
list `[Winter, Spring, Summer, Fall]` it builds — the `startingSeason`
rotation only affects the temperature baseline, not season resolution; and
day 91 is still inside Spring's `[90, 182)` range): with the default
config (season lengths {90, 92, 92, 91}, `startingSeason = "Spring"`), day
0 resolves to `{name: "Winter", progress: 0}` and day 91 resolves to
`{name: "Spring", progress: 1/92}`, both in `getSeasonForDay` and in the
generated climate records. -/
theorem season_resolution_unrotated :
    getSeasonForDay 0 (seasonsOf defaultConfig) = ⟨"Winter", JSNum.fin 0⟩ ∧
    getSeasonForDay 91 (seasonsOf defaultConfig) = ⟨"Spring", JSNum.fin (1 / 92)⟩ ∧
    (climateDay defaultConfig 0 0).season = "Winter" ∧
    (climateDay defaultConfig 0 91).season = "Spring" :=
  default_resolution_facts

/-! ## Claim C1: determinism of the generation pass -/

/-- C1: the full generation pass is a pure function of the
`(config, seed)` pair — two independent runs of `simulate` with the same
config and seed produce element-for-element identical climate, population
and food sequences. -/
theorem generation_deterministic (cfg : SimulationConfig) (seed : ℝ)
    (run1 run2 : List ClimateRec × List PopRec × List FoodRec)
    (h1 : run1 = simulate cfg seed) (h2 : run2 = simulate cfg seed) :
    (∀ i, run1.1.get? i = run2.1.get? i) ∧
    (∀ i, run1.2.1.get? i = run2.2.1.get? i) ∧
    (∀ i, run1.2.2.get? i = run2.2.2.get? i) := by
  subst h1
  subst h2
  exact ⟨fun _ => rfl, fun _ => rfl, fun _ => rfl⟩

/-- Witness for `generation_deterministic`: two runs with the default
config and seed 0. -/
theorem generation_deterministic_witness :
    simulate defaultConfig 0 = simulate defaultConfig 0 ∧
    ((∀ i, (simulate defaultConfig 0).1.get? i = (simulate defaultConfig 0).1.get? i) ∧
     (∀ i, (simulate defaultConfig 0).2.1.get? i = (simulate defaultConfig 0).2.1.get? i) ∧
     (∀ i, (simulate defaultConfig 0).2.2.get? i = (simulate defaultConfig 0).2.2.get? i)) :=
  ⟨rfl, generation_deterministic defaultConfig 0 _ _ rfl rfl⟩

/-! ## Helper lemmas: the population step and the daily economy step -/

theorem toNat_cast_real (z : ℤ) : ((z.toNat : ℕ) : ℝ) = Max.max 0 (z : ℝ) := by
  rw [← Int.cast_natCast, Int.toNat_eq_max, Int.cast_max]
  norm_num [max_comm]

theorem floor_nat_add_half (k : ℕ) : ⌊(k : ℝ) + 1/2⌋ = (k : ℤ) := by
  rw [Int.floor_eq_iff]
  constructor
  · push_cast
    linarith
  · push_cast
    linarith

theorem jsRound10_fin (x : ℝ) :
    jsRound10 (JSNum.fin x) = JSNum.fin ((⌊x * 10 + 1/2⌋ : ℤ) / 10) := by
  rw [jsRound10, JSNum.mul_fin, JSNum.round_fin,
    JSNum.div_fin_of_ne _ _ (by norm_num : (10:ℝ) ≠ 0)]

theorem round10_nonneg (x : ℝ) (hx : 0 ≤ x) : 0 ≤ ((⌊x * 10 + 1/2⌋ : ℤ) : ℝ) / 10 := by
  apply div_nonneg _ (by norm_num)
  have : (0:ℤ) ≤ ⌊x * 10 + 1/2⌋ := Int.floor_nonneg.mpr (by nlinarith)
  exact_mod_cast this

/-- For a finite population, a positive finite food stock and a finite
food requirement, `calculatePopulationChange` produces a nonnegative
finite new population; when moreover the population is a natural number,
the new population is a natural number and zero is absorbing. -/
theorem popChange_spec (p F N : ℝ) (hF : 0 < F) (rates : PopRates) :
    ∃ p' : ℝ,
      (calculatePopulationChange (JSNum.fin p) (JSNum.fin F) (JSNum.fin N) rates).newPopulation
        = JSNum.fin p' ∧ 0 ≤ p' ∧
      (∀ k : ℕ, p = (k : ℝ) → ∃ kk : ℕ, p' = (kk : ℝ) ∧ (k = 0 → kk = 0)) := by
  obtain ⟨ρ, hρ⟩ : ∃ ρ : ℝ, foodRatio (JSNum.fin F) (JSNum.fin N) = JSNum.fin ρ := by
    by_cases hn : N = 0
    · subst hn
      rw [foodRatio, JSNum.div_fin_zero_of_pos F hF]
      exact ⟨1, rfl⟩
    · rw [foodRatio, JSNum.div_fin_of_ne _ _ hn, JSNum.min_fin]
      exact ⟨_, rfl⟩
  obtain ⟨β, hβ⟩ : ∃ β : ℝ, birthRate rates.baseBirthRate (JSNum.fin ρ) = JSNum.fin β := by
    rw [birthRate]
    split_ifs <;> exact ⟨_, JSNum.mul_fin _ _⟩
  refine ⟨Max.max 0 (p + (⌊p * β⌋ : ℤ) - (⌊p * (rates.baseDeathRate * (2 - ρ))⌋ : ℤ)),
    ?_, le_max_left _ _, ?_⟩
  · simp only [calculatePopulationChange, hρ, hβ, JSNum.mul_fin, JSNum.sub_fin,
      JSNum.floor_fin, JSNum.add_fin, JSNum.max_fin]
  · intro k hk
    subst hk
    refine ⟨((k : ℤ) + ⌊(k : ℝ) * β⌋ - ⌊(k : ℝ) * (rates.baseDeathRate * (2 - ρ))⌋).toNat,
      ?_, ?_⟩
    · rw [toNat_cast_real]
      push_cast
      ring_nf
    · intro hk0
      subst hk0
      norm_num

/-- One day of the food & population loop preserves the finiteness and
nonnegativity of the running food stock and population, emits nonnegative
finite ledger values, and keeps a natural-number population natural with
zero absorbing. -/
theorem econStep_spec (cfg : SimulationConfig) (seed : ℝ) (dayIndex : ℕ) (f p : ℝ)
    (hf : 0 ≤ f) (hmin : 0 < cfg.minGrowth) (hmax : 0 ≤ cfg.maxGrowth)
    (htol : cfg.tolerance ≠ 0) :
    ∃ f' p' q v w : ℝ,
      (econStep cfg seed dayIndex ⟨JSNum.fin f, JSNum.fin p⟩).state.food = JSNum.fin f' ∧
      (econStep cfg seed dayIndex ⟨JSNum.fin f, JSNum.fin p⟩).state.population = JSNum.fin p' ∧
      (econStep cfg seed dayIndex ⟨JSNum.fin f, JSNum.fin p⟩).popRec.population = JSNum.fin q ∧
      (econStep cfg seed dayIndex ⟨JSNum.fin f, JSNum.fin p⟩).growthRec.food = JSNum.fin v ∧
      (econStep cfg seed dayIndex ⟨JSNum.fin f, JSNum.fin p⟩).consumptionRec.food = JSNum.fin w ∧
      0 ≤ f' ∧ 0 ≤ p' ∧ 0 ≤ q ∧ 0 ≤ v ∧ 0 ≤ w ∧
      (∀ k : ℕ, p = (k : ℝ) → ∃ kk : ℕ, p' = (kk : ℝ) ∧ q = (kk : ℝ) ∧ (k = 0 → kk = 0)) := by
  obtain ⟨g, hg, hgmin⟩ := calculateGrowth_spec ((climateDay cfg seed dayIndex).temperature)
    (cropConfigOf cfg) (JSNum.fin p) hmax htol
  have hgmin' : cfg.minGrowth ≤ g := hgmin
  have hF : 0 < f + g := by linarith
  obtain ⟨p', hp', hp'0, hnat⟩ := popChange_spec p (f + g) (p * cfg.foodPerPerson) hF
    ⟨cfg.baseBirthRate, cfg.baseDeathRate⟩
  have hq0 : (0:ℝ) ≤ ((⌊p' + 1/2⌋ : ℤ) : ℝ) := by
    have : (0:ℤ) ≤ ⌊p' + 1/2⌋ := Int.floor_nonneg.mpr (by linarith)
    exact_mod_cast this
  have hqnat : ∀ kk : ℕ, p' = (kk : ℝ) → ((⌊p' + 1/2⌋ : ℤ) : ℝ) = (kk : ℝ) := by
    intro kk hkk
    rw [hkk, floor_nat_add_half]
    push_cast
    ring
  by_cases hneg : f + g - p * cfg.foodPerPerson < 0
  · refine ⟨0, p', (⌊p' + 1/2⌋ : ℤ), (⌊(f + g) * 10 + 1/2⌋ : ℤ) / 10,
      (⌊(0:ℝ) * 10 + 1/2⌋ : ℤ) / 10, ?_, ?_, ?_, ?_, ?_,
      le_refl 0, hp'0, hq0, round10_nonneg _ hF.le, round10_nonneg 0 (le_refl 0), ?_⟩
    · simp only [econStep, hg, hp', JSNum.add_fin, JSNum.mul_fin, JSNum.sub_fin,
        JSNum.ltb_fin, decide_eq_true_eq, hneg, if_true]
    · simp only [econStep, hg, hp', JSNum.add_fin, JSNum.mul_fin]
    · simp only [econStep, hg, hp', JSNum.add_fin, JSNum.mul_fin, JSNum.round_fin]
    · simp only [econStep, hg, hp', JSNum.add_fin, JSNum.mul_fin, jsRound10_fin]
    · simp only [econStep, hg, hp', JSNum.add_fin, JSNum.mul_fin, JSNum.sub_fin,
        JSNum.ltb_fin, decide_eq_true_eq, hneg, if_true, jsRound10_fin]
    · intro k hk
      obtain ⟨kk, hkk, hzero⟩ := hnat k hk
      exact ⟨kk, hkk, hqnat kk hkk, hzero⟩
  · push_neg at hneg
    refine ⟨f + g - p * cfg.foodPerPerson, p', (⌊p' + 1/2⌋ : ℤ),
      (⌊(f + g) * 10 + 1/2⌋ : ℤ) / 10,
      (⌊(f + g - p * cfg.foodPerPerson) * 10 + 1/2⌋ : ℤ) / 10, ?_, ?_, ?_, ?_, ?_,
      hneg, hp'0, hq0, round10_nonneg _ hF.le, round10_nonneg _ hneg, ?_⟩
    · simp only [econStep, hg, hp', JSNum.add_fin, JSNum.mul_fin, JSNum.sub_fin,
        JSNum.ltb_fin, decide_eq_true_eq, not_lt.mpr hneg, if_false]
    · simp only [econStep, hg, hp', JSNum.add_fin, JSNum.mul_fin]
    · simp only [econStep, hg, hp', JSNum.add_fin, JSNum.mul_fin, JSNum.round_fin]
    · simp only [econStep, hg, hp', JSNum.add_fin, JSNum.mul_fin, jsRound10_fin]
    · simp only [econStep, hg, hp', JSNum.add_fin, JSNum.mul_fin, JSNum.sub_fin,
        JSNum.ltb_fin, decide_eq_true_eq, not_lt.mpr hneg, if_false, jsRound10_fin]
    · intro k hk
      obtain ⟨kk, hkk, hzero⟩ := hnat k hk
      exact ⟨kk, hkk, hqnat kk hkk, hzero⟩

/-- Every ledger value emitted by the food & population loop is a
nonnegative finite number, from any nonnegative finite food stock and any
finite population. -/
theorem econLoop_entries (cfg : SimulationConfig) (seed : ℝ)
    (hmin : 0 < cfg.minGrowth) (hmax : 0 ≤ cfg.maxGrowth) (htol : cfg.tolerance ≠ 0) :
    ∀ (n d0 : ℕ) (f p : ℝ), 0 ≤ f →
      (∀ r ∈ (econLoop cfg seed d0 n ⟨JSNum.fin f, JSNum.fin p⟩).1,
        ∃ q : ℝ, r.population = JSNum.fin q ∧ 0 ≤ q) ∧
      (∀ fr ∈ (econLoop cfg seed d0 n ⟨JSNum.fin f, JSNum.fin p⟩).2,
        ∃ v : ℝ, fr.food = JSNum.fin v ∧ 0 ≤ v) := by
  intro n
  induction n with
  | zero =>
    intro d0 f p hf
    constructor <;> intro r hr <;> simp [econLoop] at hr
  | succ m ih =>
    intro d0 f p hf
    obtain ⟨f', p', q, v, w, hsf, hsp, hq, hv, hw, hf'0, hp'0, hq0, hv0, hw0, -⟩ :=
      econStep_spec cfg seed d0 f p hf hmin hmax htol
    have hstate : (econStep cfg seed d0 ⟨JSNum.fin f, JSNum.fin p⟩).state
        = ⟨JSNum.fin f', JSNum.fin p'⟩ := by
      rw [← hsf, ← hsp]
    constructor
    · intro r hr
      simp only [econLoop] at hr
      rcases List.mem_cons.mp hr with rfl | hr'
      · exact ⟨q, hq, hq0⟩
      · rw [hstate] at hr'
        exact ((ih (d0 + 1) f' p' hf'0).1) r hr'
    · intro fr hfr
      simp only [econLoop] at hfr
      rcases List.mem_cons.mp hfr with rfl | hfr'
      · exact ⟨v, hv, hv0⟩
      · rcases List.mem_cons.mp hfr' with rfl | hfr''
        · exact ⟨w, hw, hw0⟩
        · rw [hstate] at hfr''
          exact ((ih (d0 + 1) f' p' hf'0).2) fr hfr''

/-- Every population entry of the loop is a natural number when the
starting population is one. -/
theorem econLoop_pop_nat (cfg : SimulationConfig) (seed : ℝ)
    (hmin : 0 < cfg.minGrowth) (hmax : 0 ≤ cfg.maxGrowth) (htol : cfg.tolerance ≠ 0) :
    ∀ (n d0 : ℕ) (f : ℝ) (k : ℕ), 0 ≤ f →
      ∀ r ∈ (econLoop cfg seed d0 n ⟨JSNum.fin f, JSNum.fin (k : ℝ)⟩).1,
        ∃ kk : ℕ, r.population = JSNum.fin (kk : ℝ) := by
  intro n
  induction n with
  | zero =>
    intro d0 f k hf r hr
    simp [econLoop] at hr
  | succ m ih =>
    intro d0 f k hf r hr
    obtain ⟨f', p', q, v, w, hsf, hsp, hq, hv, hw, hf'0, _, _, _, _, hnat⟩ :=
      econStep_spec cfg seed d0 f (k : ℝ) hf hmin hmax htol
    obtain ⟨kk, hkk, hqkk, -⟩ := hnat k rfl
    have hstate : (econStep cfg seed d0 ⟨JSNum.fin f, JSNum.fin (k : ℝ)⟩).state
        = ⟨JSNum.fin f', JSNum.fin (kk : ℝ)⟩ := by
      rw [← hsf]
      rw [hkk] at hsp
      rw [← hsp]
    simp only [econLoop] at hr
    rcases List.mem_cons.mp hr with rfl | hr'
    · exact ⟨kk, by rw [hq, hqkk]⟩
    · rw [hstate] at hr'
      exact ih (d0 + 1) f' kk hf'0 r hr'

/-- From a zero population every later population entry of the loop is
exactly zero. -/
theorem econLoop_pop_zero (cfg : SimulationConfig) (seed : ℝ)
    (hmin : 0 < cfg.minGrowth) (hmax : 0 ≤ cfg.maxGrowth) (htol : cfg.tolerance ≠ 0) :
    ∀ (n d0 : ℕ) (f : ℝ), 0 ≤ f →
      ∀ r ∈ (econLoop cfg seed d0 n ⟨JSNum.fin f, JSNum.fin 0⟩).1,
        r.population = JSNum.fin 0 := by
  intro n
  induction n with
  | zero =>
    intro d0 f hf r hr
    simp [econLoop] at hr
  | succ m ih =>
    intro d0 f hf r hr
    obtain ⟨f', p', q, v, w, hsf, hsp, hq, hv, hw, hf'0, _, _, _, _, hnat⟩ :=
      econStep_spec cfg seed d0 f 0 hf hmin hmax htol
    obtain ⟨kk, hkk, hqkk, hkk0⟩ := hnat 0 (by norm_num)
    have hkkz : kk = 0 := hkk0 rfl
    subst hkkz
    simp only [Nat.cast_zero] at hkk hqkk
    rw [hkk] at hsp
    have hstate : (econStep cfg seed d0 ⟨JSNum.fin f, JSNum.fin 0⟩).state
        = ⟨JSNum.fin f', JSNum.fin 0⟩ := by
      have heta : (econStep cfg seed d0 ⟨JSNum.fin f, JSNum.fin 0⟩).state
          = ⟨(econStep cfg seed d0 ⟨JSNum.fin f, JSNum.fin 0⟩).state.food,
             (econStep cfg seed d0 ⟨JSNum.fin f, JSNum.fin 0⟩).state.population⟩ := rfl
      rw [heta, hsf, hsp]
    simp only [econLoop] at hr
    rcases List.mem_cons.mp hr with rfl | hr'
    · rw [hq, hqkk]
    · rw [hstate] at hr'
      exact ih (d0 + 1) f' hf'0 r hr'

/-- Zero population is absorbing across the loop's emitted entries: once
some entry records population 0, every later entry does. -/
theorem econLoop_absorb (cfg : SimulationConfig) (seed : ℝ)
    (hmin : 0 < cfg.minGrowth) (hmax : 0 ≤ cfg.maxGrowth) (htol : cfg.tolerance ≠ 0) :
    ∀ (n d0 : ℕ) (f : ℝ) (k : ℕ), 0 ≤ f →
      ∀ (i j : ℕ) (ri rj : PopRec), i ≤ j →
        (econLoop cfg seed d0 n ⟨JSNum.fin f, JSNum.fin (k : ℝ)⟩).1.get? i = some ri →
        (econLoop cfg seed d0 n ⟨JSNum.fin f, JSNum.fin (k : ℝ)⟩).1.get? j = some rj →
        ri.population = JSNum.fin 0 → rj.population = JSNum.fin 0 := by
  intro n
  induction n with
  | zero =>
    intro d0 f k hf i j ri rj hij hi hj h0
    simp [econLoop] at hi
  | succ m ih =>
    intro d0 f k hf i j ri rj hij hi hj h0
    obtain ⟨f', p', q, v, w, hsf, hsp, hq, hv, hw, hf'0, _, _, _, _, hnat⟩ :=
      econStep_spec cfg seed d0 f (k : ℝ) hf hmin hmax htol
    obtain ⟨kk, hkk, hqkk, -⟩ := hnat k rfl
    have hstate : (econStep cfg seed d0 ⟨JSNum.fin f, JSNum.fin (k : ℝ)⟩).state
        = ⟨JSNum.fin f', JSNum.fin (kk : ℝ)⟩ := by
      rw [← hsf]
      rw [hkk] at hsp
      rw [← hsp]
    simp only [econLoop] at hi hj
    cases i with
    | zero =>
      rw [List.get?_cons_zero] at hi
      injection hi with hi
      subst hi
      have hkkz : (kk : ℝ) = 0 := by
        rw [hq] at h0
        rw [← hqkk]
        exact JSNum.fin.inj h0
      have hkk0 : kk = 0 := by exact_mod_cast hkkz
      subst hkk0
      cases j with
      | zero =>
        rw [List.get?_cons_zero] at hj
        injection hj with hj
        subst hj
        exact h0
      | succ j' =>
        rw [List.get?_cons_succ] at hj
        rw [hstate] at hj
        simp only [Nat.cast_zero] at hj
        exact econLoop_pop_zero cfg seed hmin hmax htol m (d0 + 1) f' hf'0 rj
          (List.get?_mem hj)
    | succ i' =>
      cases j with
      | zero => exact absurd hij (Nat.not_succ_le_zero i')
      | succ j' =>
        rw [List.get?_cons_succ] at hi hj
        rw [hstate] at hi hj
        exact ih (d0 + 1) f' kk hf'0 i' j' ri rj (Nat.succ_le_succ_iff.mp hij) hi hj h0

/-! ## Claim C2: population nonnegativity and absorbing zero -/

/-- C2 (amended: additionally requires `startingFood ≥ 0`,
`minGrowth > 0`, `maxGrowth ≥ 0`, `tolerance ≠ 0` and
`foodPerPerson ≥ 0` — with the degenerate configuration
`startingPopulation = 0`, `startingFood = 0`, `minGrowth = maxGrowth = 0`
the day-0 food ratio is `0/0 = NaN`, which propagates to a NaN population
entry): with a nonnegative-integer starting population, every
PopulationLedgerEntry's population is a (nonnegative) natural number, and
once an entry records population 0 every later entry of the same run
records 0. -/
theorem population_nonneg_absorbing (cfg : SimulationConfig) (seed : ℝ)
    (hstartPop : ∃ k : ℕ, cfg.startingPopulation = (k : ℝ))
    (hstartFood : 0 ≤ cfg.startingFood)
    (hmin : 0 < cfg.minGrowth) (hmax : 0 ≤ cfg.maxGrowth)
    (htol : cfg.tolerance ≠ 0) (_hfpp : 0 ≤ cfg.foodPerPerson) :
    (∀ r ∈ (simulate cfg seed).2.1, ∃ kk : ℕ, r.population = JSNum.fin (kk : ℝ)) ∧
    (∀ (i j : ℕ) (ri rj : PopRec), i ≤ j →
      (simulate cfg seed).2.1.get? i = some ri →
      (simulate cfg seed).2.1.get? j = some rj →
      ri.population = JSNum.fin 0 → rj.population = JSNum.fin 0) := by
  obtain ⟨k, hk⟩ := hstartPop
  have hsim : (simulate cfg seed).2.1 =
      (econLoop cfg seed 0 (totalDays cfg)
        ⟨JSNum.fin cfg.startingFood, JSNum.fin (k : ℝ)⟩).1 := by
    rw [simulate, ← hk]
  rw [hsim]
  exact ⟨econLoop_pop_nat cfg seed hmin hmax htol (totalDays cfg) 0 cfg.startingFood k
      hstartFood,
    econLoop_absorb cfg seed hmin hmax htol (totalDays cfg) 0 cfg.startingFood k
      hstartFood⟩

/-- Witness for `population_nonneg_absorbing`: the default configuration
with seed 0. -/
theorem population_nonneg_absorbing_witness :
    (∃ k : ℕ, defaultConfig.startingPopulation = (k : ℝ)) ∧
    0 ≤ defaultConfig.startingFood ∧ 0 < defaultConfig.minGrowth ∧
    0 ≤ defaultConfig.maxGrowth ∧ defaultConfig.tolerance ≠ 0 ∧
    0 ≤ defaultConfig.foodPerPerson ∧
    ((∀ r ∈ (simulate defaultConfig 0).2.1, ∃ kk : ℕ, r.population = JSNum.fin (kk : ℝ)) ∧
    (∀ (i j : ℕ) (ri rj : PopRec), i ≤ j →
      (simulate defaultConfig 0).2.1.get? i = some ri →
      (simulate defaultConfig 0).2.1.get? j = some rj →
      ri.population = JSNum.fin 0 → rj.population = JSNum.fin 0)) :=
  ⟨⟨1000, by norm_num [defaultConfig]⟩, by norm_num [defaultConfig],
    by norm_num [defaultConfig], by norm_num [defaultConfig],
    by norm_num [defaultConfig], by norm_num [defaultConfig],
    population_nonneg_absorbing defaultConfig 0 ⟨1000, by norm_num [defaultConfig]⟩
      (by norm_num [defaultConfig]) (by norm_num [defaultConfig])
      (by norm_num [defaultConfig]) (by norm_num [defaultConfig])
      (by norm_num [defaultConfig])⟩

/-! ## Claim C3: food-ledger nonnegativity -/

/-- C3 (amended: `minGrowth ≥ 0` must be strengthened to `minGrowth > 0`
and `startingPopulation` a nonnegative integer, `tolerance ≠ 0`,
`foodPerPerson ≥ 0` added — with `minGrowth = maxGrowth = 0`,
`startingFood = 0` and `startingPopulation = 0` the population becomes
NaN on day 0 and the day-1 consumption food entry is NaN; and with a
negative `startingPopulation` and `foodPerPerson = 0` the JS product
`population * foodPerPerson` is the negative zero, whose division path
(`foodStock / -0 = -Infinity`) likewise ends in a NaN food entry.  A
nonnegative-integer population together with `foodPerPerson ≥ 0` keeps
the population a natural number and every food requirement a nonnegative
(positive-zero) product, so no negative-zero divisor is ever reachable):
every FoodLedgerEntry emitted across a run — growth phase at
`x = dayIndex` and consumption phase at `x = dayIndex + 0.5` — carries a
nonnegative finite stock value. -/
theorem food_entries_nonneg (cfg : SimulationConfig) (seed : ℝ)
    (hstartPop : ∃ k : ℕ, cfg.startingPopulation = (k : ℝ))
    (hstartFood : 0 ≤ cfg.startingFood)
    (hmin : 0 < cfg.minGrowth) (hmax : 0 ≤ cfg.maxGrowth)
    (htol : cfg.tolerance ≠ 0) (_hfpp : 0 ≤ cfg.foodPerPerson) :
    ∀ fr ∈ (simulate cfg seed).2.2, ∃ v : ℝ, fr.food = JSNum.fin v ∧ 0 ≤ v := by
  obtain ⟨k, hk⟩ := hstartPop
  have hsim : (simulate cfg seed).2.2 =
      (econLoop cfg seed 0 (totalDays cfg)
        ⟨JSNum.fin cfg.startingFood, JSNum.fin (k : ℝ)⟩).2 := by
    rw [simulate, ← hk]
  rw [hsim]
  exact (econLoop_entries cfg seed hmin hmax htol (totalDays cfg) 0 cfg.startingFood
    (k : ℝ) hstartFood).2

/-- Witness for `food_entries_nonneg`: the default configuration with
seed 0. -/
theorem food_entries_nonneg_witness :
    (∃ k : ℕ, defaultConfig.startingPopulation = (k : ℝ)) ∧
    0 ≤ defaultConfig.startingFood ∧ 0 < defaultConfig.minGrowth ∧
    0 ≤ defaultConfig.maxGrowth ∧ defaultConfig.tolerance ≠ 0 ∧
    0 ≤ defaultConfig.foodPerPerson ∧
    ∀ fr ∈ (simulate defaultConfig 0).2.2, ∃ v : ℝ, fr.food = JSNum.fin v ∧ 0 ≤ v :=
  ⟨⟨1000, by norm_num [defaultConfig]⟩, by norm_num [defaultConfig],
    by norm_num [defaultConfig], by norm_num [defaultConfig],
    by norm_num [defaultConfig], by norm_num [defaultConfig],
    food_entries_nonneg defaultConfig 0 ⟨1000, by norm_num [defaultConfig]⟩
      (by norm_num [defaultConfig]) (by norm_num [defaultConfig])
      (by norm_num [defaultConfig]) (by norm_num [defaultConfig])
      (by norm_num [defaultConfig])⟩

set_option maxRecDepth 16000 in
/-- The degenerate crop produces exactly 0 on day 0 (its `minGrowth` and
`maxGrowth` are both 0; the bell curve stays finite since
`tolerance = 18`). -/
theorem cfgDeg_growth0 :
    calculateGrowth ((climateDay cfgDeg 0 0).temperature) (cropConfigOf cfgDeg)
      (JSNum.fin 0) = JSNum.fin 0 := by
  norm_num [calculateGrowth, calculateGrowthFactor, cropConfigOf, cfgDeg, defaultConfig,
    JSNum.div_fin_of_ne]

set_option maxRecDepth 16000 in
/-- The degenerate crop produces exactly 0 on day 1 as well, even with a
NaN population (`NaN <= 10000` is false, so the factor is the finite
cap 20). -/
theorem cfgDeg_growth1 :
    calculateGrowth ((climateDay cfgDeg 0 1).temperature) (cropConfigOf cfgDeg)
      JSNum.nan = JSNum.fin 0 := by
  norm_num [calculateGrowth, calculateGrowthFactor, cropConfigOf, cfgDeg, defaultConfig,
    JSNum.div_fin_of_ne]

/-- The population step at population 0, stock 0 and requirement 0: the
food ratio is `0/0 = NaN` and every output is NaN. -/
theorem popChange_zero_zero (rates : PopRates) :
    calculatePopulationChange (JSNum.fin 0) (JSNum.fin 0) (JSNum.fin 0) rates =
      ⟨JSNum.nan, JSNum.nan, JSNum.nan⟩ := by
  have hne : JSNum.nan = JSNum.fin 0 ↔ False :=
    ⟨fun h => JSNum.noConfusion h, False.elim⟩
  rw [calculatePopulationChange]
  norm_num [foodRatio, birthRate, hne]

set_option maxRecDepth 100000 in
/-- Day 0 of the degenerate run: the recorded population is NaN while the
food stock stays finite at 0. -/
theorem cfgDeg_day0 :
    (econStep cfgDeg 0 0 ⟨JSNum.fin 0, JSNum.fin 0⟩).popRec.population = JSNum.nan ∧
    (econStep cfgDeg 0 0 ⟨JSNum.fin 0, JSNum.fin 0⟩).state = ⟨JSNum.fin 0, JSNum.nan⟩ := by
  constructor
  · unfold econStep
    simp only [cfgDeg_growth0, JSNum.add_fin, JSNum.mul_fin, add_zero, zero_mul]
    rw [popChange_zero_zero]
    simp
  · unfold econStep
    simp only [cfgDeg_growth0, JSNum.add_fin, JSNum.mul_fin, JSNum.sub_fin,
      add_zero, zero_mul, sub_self]
    rw [popChange_zero_zero]
    norm_num

set_option maxRecDepth 100000 in
/-- Day 1 of the degenerate run: the NaN population makes the day's food
requirement NaN, which propagates into the consumption-phase food entry. -/
theorem cfgDeg_day1 :
    (econStep cfgDeg 0 1 ⟨JSNum.fin 0, JSNum.nan⟩).consumptionRec.food = JSNum.nan := by
  unfold econStep
  simp only [cfgDeg_growth1, JSNum.add_fin, add_zero, JSNum.mul_nan_left,
    JSNum.sub_nan_right, JSNum.ltb_nan_left, jsRound10, JSNum.round_nan, JSNum.div_nan_left]
  norm_num

/-- One unfolding of the food & population loop. -/
theorem econLoop_succ (cfg : SimulationConfig) (seed : ℝ) (d0 n : ℕ) (s : EconState) :
    econLoop cfg seed d0 (n + 1) s =
      ((econStep cfg seed d0 s).popRec ::
        (econLoop cfg seed (d0 + 1) n (econStep cfg seed d0 s).state).1,
       (econStep cfg seed d0 s).growthRec :: (econStep cfg seed d0 s).consumptionRec ::
        (econLoop cfg seed (d0 + 1) n (econStep cfg seed d0 s).state).2) := by
  simp only [econLoop]

/-- Counterexample to C2 as stated: `cfgDeg` has a nonnegative integer
`startingPopulation` (namely 0), yet the very first
PopulationLedgerEntry of the run records population NaN — not a value
`≥ 0`. -/
theorem population_nonneg_counterexample :
    ((simulate cfgDeg 0).2.1.headD
      ⟨0, JSNum.fin 0, JSNum.fin 0, JSNum.fin 0, JSNum.fin 0⟩).population = JSNum.nan ∧
    ¬ ∃ q : ℝ, JSNum.nan = JSNum.fin q ∧ 0 ≤ q := by
  constructor
  · have hsim : (simulate cfgDeg 0).2.1 =
        (econLoop cfgDeg 0 0 (364 + 1) ⟨JSNum.fin 0, JSNum.fin 0⟩).1 := by
      rw [simulate]
      norm_num [totalDays, cfgDeg, defaultConfig]
    rw [hsim, econLoop_succ, List.headD_cons]
    exact cfgDeg_day0.1
  · rintro ⟨q, hq, -⟩
    exact JSNum.noConfusion hq

/-- Counterexample to C3 as stated: `cfgDeg` satisfies the claim's
hypotheses (`startingFood = 0 ≥ 0`, `minGrowth = 0 ≥ 0`,
`maxGrowth = 0 ≥ 0`), yet the day-1 consumption-phase FoodLedgerEntry
(index 3 of the food ledger) records stock NaN — not a value `≥ 0`. -/
theorem food_nonneg_counterexample :
    ((simulate cfgDeg 0).2.2.getD 3 ⟨0, JSNum.fin 0, "", JSNum.fin 0⟩).food = JSNum.nan ∧
    ¬ ∃ v : ℝ, JSNum.nan = JSNum.fin v ∧ 0 ≤ v := by
  constructor
  · have hsim : (simulate cfgDeg 0).2.2 =
        (econLoop cfgDeg 0 0 (364 + 1) ⟨JSNum.fin 0, JSNum.fin 0⟩).2 := by
      rw [simulate]
      norm_num [totalDays, cfgDeg, defaultConfig]
    rw [hsim, econLoop_succ, cfgDeg_day0.2,
      show (364:ℕ) = 363 + 1 by norm_num, econLoop_succ,
      List.getD_cons_succ, List.getD_cons_succ, List.getD_cons_succ, List.getD_cons_zero,
      show (0:ℕ) + 1 = 1 by norm_num]
    exact cfgDeg_day1
  · rintro ⟨v, hv, -⟩
    exact JSNum.noConfusion hv

/-- Counterexample to C4 as stated: the engine's day-0 season is Winter,
not Spring, and its day-91 season is Spring, not Summer. -/
theorem season_resolution_counterexample :
    (climateDay defaultConfig 0 0).season ≠ "Spring" ∧
    (climateDay defaultConfig 0 91).season ≠ "Summer" := by
  have h := default_resolution_facts
  constructor
  · rw [h.2.2.1]
    decide
  · rw [h.2.2.2]
    decide

end WeatherSim
